import Mathlib

/-!
Verification of the Niri IPC client (`src/ignis/services/niri/service.py`).

The Python module maintains three cached fields (`_workspaces`,
`_active_workspace`, `_active_window`), populated from JSON replies
(`__handle_response`) and JSON events (`__handle_event`), with a background
listener loop (`__listen_socket`) and a synchronous request path
(`__send_request`).  We embed the JSON data model, the Python membership and
indexing semantics the handlers rely on, and the handlers themselves, and
prove the specified properties about them.
-/

/-- JSON values, the result of a successful `json.loads`. -/
inductive Json where
  | null
  | bool (b : Bool)
  | num (n : Int)
  | str (s : String)
  | arr (elems : List Json)
  | obj (fields : List (String × Json))

/-- Lookup of a key in a JSON object field list, last binding wins, matching
the overwrite semantics of Python dict construction in `json.loads`. -/
def lookupLast (kvs : List (String × Json)) (k : String) : Option Json :=
  match kvs with
  | [] => none
  | (k', v) :: rest =>
    match lookupLast rest k with
    | some w => some w
    | none => if k' = k then some v else none

/-- Character-list version of `startsWith`, used for the Python substring
membership test on strings. -/
def startsWithCh : List Char → List Char → Bool
  | [], _ => true
  | _ :: _, [] => false
  | a :: as, b :: bs => a == b && startsWithCh as bs

/-- Whether `needle` occurs as a contiguous run inside `hay` (Python
`needle in hay` for strings). -/
def hasSubCh (needle : List Char) : List Char → Bool
  | [] => needle.isEmpty
  | hay@(_ :: t) => startsWithCh needle hay || hasSubCh needle t

/-- Python membership test `k in x` for a string key `k` against a JSON value:
on a dict it tests key presence, on a list it tests element equality with the
string, on a string it is a substring test, and on any other value it raises
TypeError (modelled as `Except.error`). -/
def pyContains (x : Json) (k : String) : Except Unit Bool :=
  match x with
  | .obj kvs => .ok (kvs.any fun p => p.1 = k)
  | .arr elems =>
    .ok (elems.any fun e =>
      match e with
      | .str s => s = k
      | _ => false)
  | .str s => .ok (hasSubCh k.toList s.toList)
  | _ => .error ()

/-- Python indexing `x[k]` with a string key `k`: on a dict it returns the
value or raises KeyError when absent; on any other JSON value it raises
TypeError.  Both exceptions are modelled as `Except.error`. -/
def pyIndex (x : Json) (k : String) : Except Unit Json :=
  match x with
  | .obj kvs =>
    match lookupLast kvs k with
    | some v => .ok v
    | none => .error ()
  | _ => .error ()

/-- The cached state of `NiriService`: `_workspaces`, `_active_workspace`
and `_active_window`.  The Python type annotations promise lists and dicts,
but the assignments store whatever JSON value the peer sent, so each field
is a JSON value. -/
structure NiriState where
  workspaces : Json
  active_workspace : Json
  active_window : Json

/-- The field values set in `__init__` before any request is made. -/
def initState : NiriState :=
  { workspaces := Json.arr []
  , active_workspace := Json.obj []
  , active_window := Json.obj [] }

/-- Classification of an inbound byte chunk under the two fallible library
calls the source applies to it: `bytes.decode` followed by `json.loads`.
`notUtf8` stands for the byte sequences on which UTF-8 decoding raises
UnicodeDecodeError, `notJson` for those that decode to a string rejected by
`json.loads` (JSONDecodeError), and `val j` for those parsed to the JSON
value `j`. -/
inductive Frame where
  | notUtf8
  | notJson
  | val (j : Json)

/-- Embedding of `__handle_event`.  Returns the state after the call and a
flag that is `false` exactly when an exception other than JSONDecodeError
escapes the handler (UnicodeDecodeError from `data.decode`, TypeError from
the membership test or the indexing, KeyError from a missing payload key):
the handler only catches `json.JSONDecodeError`.  State mutations in the
source are single assignments that are the last operation of their branch,
so an escaped exception always leaves the state unchanged. -/
def handle_event (s : NiriState) (frame : Frame) : NiriState × Bool :=
  match frame with
  | .notUtf8 => (s, false)
  | .notJson => (s, true)
  | .val event =>
    match pyContains event "event" with
    | .error _ => (s, false)
    | .ok false => (s, true)
    | .ok true =>
      match pyIndex event "event" with
      | .error _ => (s, false)
      | .ok (.str kindStr) =>
        if kindStr = "workspaces_changed" then
          match pyIndex event "workspaces" with
          | .error _ => (s, false)
          | .ok w => ({ s with workspaces := w }, true)
        else if kindStr = "workspace_activated" then
          match pyIndex event "workspace" with
          | .error _ => (s, false)
          | .ok w => ({ s with active_workspace := w }, true)
        else (s, true)
      | .ok _ => (s, true)

/-- Embedding of `__handle_response`.  The argument is the result of
`json.loads` on the received string: `none` when parsing raises
JSONDecodeError (caught and logged) and `some reply` otherwise.  The three
key checks run in sequence inside one `try` that catches only
JSONDecodeError, so a TypeError from a membership test or an indexing
escapes; the returned flag is `false` in that case, and the returned state
records the assignments made before the raise. -/
def handle_response (s : NiriState) (resp : Option Json) : NiriState × Bool :=
  match resp with
  | none => (s, true)
  | some reply =>
    match pyContains reply "workspaces" with
    | .error _ => (s, false)
    | .ok b1 =>
      match (if b1 then (pyIndex reply "workspaces").map
          (fun v => { s with workspaces := v }) else .ok s) with
      | .error _ => (s, false)
      | .ok s1 =>
        match pyContains reply "active_workspace" with
        | .error _ => (s1, false)
        | .ok b2 =>
          match (if b2 then (pyIndex reply "active_workspace").map
              (fun v => { s1 with active_workspace := v }) else .ok s1) with
          | .error _ => (s1, false)
          | .ok s2 =>
            match pyContains reply "active_window" with
            | .error _ => (s2, false)
            | .ok b3 =>
              match (if b3 then (pyIndex reply "active_window").map
                  (fun v => { s2 with active_window := v }) else .ok s2) with
              | .error _ => (s2, false)
              | .ok s3 => (s3, true)

/-- Embedding of the `__listen_socket` loop body over a finite list of
inbound data chunks, in arrival order.  Each chunk is passed to
`__handle_event`; an exception escaping the handler is caught by the
`except Exception` clause of the loop, which logs and breaks.  The returned
flag is `true` when the loop consumed every chunk and is still running,
`false` when it hit `break`. -/
def listen_socket : NiriState → List Frame → NiriState × Bool
  | s, [] => (s, true)
  | s, f :: rest =>
    match handle_event s f with
    | (s', true) => listen_socket s' rest
    | (s', false) => (s', false)

/-- Embedding of `__send_request`: after `sendall`, the inline `recv` reads
the frame `resp`, then `decode("utf-8")` and `__handle_response` process it.
The flag is `false` when an exception escapes the call (UnicodeDecodeError
from `decode`, which no `try` protects, or TypeError escaping
`__handle_response`); the source raises no error on a JSON-decode failure,
which `__handle_response` catches and logs, returning normally. -/
def send_request (s : NiriState) (resp : Frame) : NiriState × Bool :=
  match resp with
  | .notUtf8 => (s, false)
  | .notJson => handle_response s none
  | .val j => handle_response s (some j)

/-- The frame read when the peer has closed the connection: `recv` returns
the empty byte string, which decodes to the empty string, and `json.loads`
of the empty string raises JSONDecodeError, so the end-of-stream read is a
`notJson` frame. -/
def eosWire : Frame := Frame.notJson

/-- Operations performed on the transport, recorded in order. -/
inductive TransportOp where
  | connect
  | send (request : Json)
  | recv

/-- The bootstrap request built by `__sync_workspaces`. -/
def getWorkspacesRequest : Json := Json.obj [("action", Json.str "get_workspaces")]

/-- The bootstrap request built by `__sync_active_window`. -/
def getActiveWindowRequest : Json := Json.obj [("action", Json.str "get_active_window")]

/-- Outcome of `__init__`: `notFound` when `NiriIPCNotFoundError` is raised,
`ok` on normal completion, `exn` when another exception escapes the
constructor, and `blocked` when the constructor never returns because a
bootstrap reply was served to the background listener and the inline
bootstrap `recv` waits forever for a frame that never comes (the carried
state is the cache at that point). -/
inductive InitResult where
  | notFound
  | ok (s : NiriState)
  | exn (s : NiriState)
  | blocked (s : NiriState)

/-- Embedding of `__init__`.  `pathExists` models
`os.path.exists(NIRI_SOCKET_DIR)`.  After `__connect`, the constructor
starts the background listener thread (`self.__listen_socket()`) and only
then runs `__sync_workspaces` and `__sync_active_window` synchronously, in
that order.  From the spawn on, two readers race on the shared socket with
no lock: the listener `recv` and the inline `recv` of `__send_request`.
`r1` and `r2` are the reply frames the transport produces for the two
bootstrap requests; `queryFirst1` (resp. `queryFirst2`) says whether the
query-path `recv` is served before the listener `recv` for the first
(resp. second) reply.  A reply served to the listener goes through
`__handle_event`, and the pending bootstrap `recv` is left waiting with no
further frame to come, so the constructor never returns.  Also returns the
list of transport operations performed: none at all when the path check
fails, and a truncated list when the first exchange raises or blocks. -/
def niri_init (pathExists : Bool) (queryFirst1 queryFirst2 : Bool)
    (r1 r2 : Frame) : InitResult × List TransportOp :=
  if pathExists then
    if queryFirst1 then
      match send_request initState r1 with
      | (s1, true) =>
        if queryFirst2 then
          match send_request s1 r2 with
          | (s2, true) =>
            (.ok s2, [.connect, .send getWorkspacesRequest, .recv,
                      .send getActiveWindowRequest, .recv])
          | (s2, false) =>
            (.exn s2, [.connect, .send getWorkspacesRequest, .recv,
                       .send getActiveWindowRequest, .recv])
        else
          (.blocked (handle_event s1 r2).1,
           [.connect, .send getWorkspacesRequest, .recv,
            .send getActiveWindowRequest, .recv])
      | (s1, false) => (.exn s1, [.connect, .send getWorkspacesRequest, .recv])
    else
      (.blocked (handle_event initState r1).1,
       [.connect, .send getWorkspacesRequest, .recv])
  else (.notFound, [])

/-- Interleaving model of one query racing the background listener.  Two
inbound frames are pending on the shared socket, the unsolicited event `e`
first and then `r`, the true reply to the request `__send_request` just
sent.  Both the listener thread (`__listen_socket`) and the query path
(`__send_request`) call `recv` on the same socket and the source holds no
lock, so the operating system serves whichever reader runs first;
`listenerFirst` selects the interleaving.  Frames are handed out in order.
Returns the final state and the frame the query-path `recv` returned. -/
def queryRace (s : NiriState) (e r : Frame) (listenerFirst : Bool) :
    NiriState × Frame :=
  if listenerFirst then
    let s1 := (handle_event s e).1
    let s2 := (send_request s1 r).1
    (s2, r)
  else
    let s1 := (send_request s e).1
    let s2 := (handle_event s1 r).1
    (s2, e)

/-- A state-store update: an inbound listener frame handled by
`__handle_event`, or a response handled by `__handle_response`
(`none` is a string rejected by `json.loads`). -/
inductive Msg where
  | ev (f : Frame)
  | rep (r : Option Json)

/-- The state after one update, ignoring whether an exception escaped
(an escaping exception never leaves a partially applied update, which the
lemmas below establish). -/
def applyMsg (s : NiriState) (m : Msg) : NiriState :=
  match m with
  | .ev f => (handle_event s f).1
  | .rep r => (handle_response s r).1

/-- The state after a sequence of updates, applied in order. -/
def applyAll (s : NiriState) (ms : List Msg) : NiriState :=
  ms.foldl applyMsg s

/-- The value a reply writes to the field guarded by `key`: present exactly
when the membership test succeeds affirmatively and the indexing succeeds. -/
def replyWrite (r : Option Json) (key : String) : Option Json :=
  match r with
  | none => none
  | some reply =>
    match pyContains reply key with
    | .ok true => (pyIndex reply key).toOption
    | _ => none

/-- The event kind a frame carries: the string value of its `event` key,
when the membership test and the indexing both succeed on it.  A non-string
kind compares unequal to every kind literal in the source, hence `none`. -/
def eventKindOf (f : Frame) : Option String :=
  match f with
  | .val e =>
    match pyContains e "event" with
    | .ok true =>
      match pyIndex e "event" with
      | .ok (.str kindStr) => some kindStr
      | _ => none
    | _ => none
  | _ => none

/-- The value an event frame writes through the branch for `kind`, reading
the payload under `payloadKey`. -/
def eventWrite (f : Frame) (kind payloadKey : String) : Option Json :=
  match f with
  | .val e =>
    if eventKindOf f = some kind then (pyIndex e payloadKey).toOption else none
  | _ => none

/-- The value an update writes to `workspaces`, if any. -/
def wWrite : Msg → Option Json
  | .ev f => eventWrite f "workspaces_changed" "workspaces"
  | .rep r => replyWrite r "workspaces"

/-- The value an update writes to `active_workspace`, if any. -/
def awWrite : Msg → Option Json
  | .ev f => eventWrite f "workspace_activated" "workspace"
  | .rep r => replyWrite r "active_workspace"

/-- The value an update writes to `active_window`, if any: no event branch
assigns that field, so only replies can write it. -/
def winWrite : Msg → Option Json
  | .ev _ => none
  | .rep r => replyWrite r "active_window"

/-- The last value written to a field across a sequence of updates. -/
def lastWrite (f : Msg → Option Json) : List Msg → Option Json
  | [] => none
  | m :: rest =>
    match lastWrite f rest with
    | some v => some v
    | none => f m

/-- A reply carrying both workspaces `[{"id":1},{"id":2}]`, for the
bootstrap scenario. -/
def bootReply1 : Json :=
  .obj [("workspaces", .arr [.obj [("id", .num 1)], .obj [("id", .num 2)]])]

/-- A reply carrying an empty active window, for the bootstrap scenario. -/
def bootReply2 : Json := .obj [("active_window", .obj [])]

/-- Field list of a `workspaces_changed` event with one workspace. -/
def wsChangedKVs : List (String × Json) :=
  [("event", .str "workspaces_changed"), ("workspaces", .arr [.obj [("id", .num 1)]])]

/-- Field list of a `workspace_activated` event activating workspace 3. -/
def wsActivatedKVs : List (String × Json) :=
  [("event", .str "workspace_activated"), ("workspace", .obj [("id", .num 3)])]

/-- A `workspaces_changed` event frame. -/
def wsChangedFrame : Frame := .val (.obj wsChangedKVs)

/-- A `workspace_activated` event frame. -/
def wsActivatedFrame : Frame := .val (.obj wsActivatedKVs)

/-- An unsolicited event frame pending on the socket during a query. -/
def strayEvent : Frame := .val (.obj wsActivatedKVs)

/-- The true reply to a `get_active_window` query, carrying window 7. -/
def trueReply : Frame := .val (.obj [("active_window", .obj [("id", .num 7)])])

/-- A cache holding earlier values, to observe that they survive. -/
def sampleState : NiriState :=
  { workspaces := .arr [.obj [("id", .num 1)]]
  , active_workspace := .obj [("id", .num 3)]
  , active_window := .obj [("id", .num 7)] }

/-! Helper lemmas shared by the claim theorems. -/

/-- On an object, the Python membership test agrees with definedness of the
last-binding lookup. -/
theorem any_eq_lookupLast_isSome (kvs : List (String × Json)) (k : String) :
    (kvs.any fun p => p.1 = k) = (lookupLast kvs k).isSome := by
  induction kvs with
  | nil => rfl
  | cons p rest ih =>
    obtain ⟨k', v⟩ := p
    simp only [List.any_cons, ih, lookupLast]
    cases h : lookupLast rest k <;> by_cases hk : k' = k <;> simp [hk, h]

/-- One update sets each field to the value the message writes to it, or
keeps the old value; in particular an escaping exception never leaves a
partially applied update. -/
theorem applyMsg_eq_writes (s : NiriState) (m : Msg) :
    applyMsg s m =
      { workspaces := (wWrite m).getD s.workspaces
      , active_workspace := (awWrite m).getD s.active_workspace
      , active_window := (winWrite m).getD s.active_window } := by
  cases m with
  | ev f =>
    cases f with
    | notUtf8 => rfl
    | notJson => rfl
    | val e =>
      cases hc : pyContains e "event" with
      | error u =>
        simp [applyMsg, handle_event, wWrite, awWrite, winWrite, eventWrite,
          eventKindOf, hc]
      | ok b =>
        cases b with
        | false =>
          simp [applyMsg, handle_event, wWrite, awWrite, winWrite, eventWrite,
            eventKindOf, hc]
        | true =>
          cases hk : pyIndex e "event" with
          | error u =>
            simp [applyMsg, handle_event, wWrite, awWrite, winWrite, eventWrite,
              eventKindOf, hc, hk]
          | ok kind =>
            cases kind with
            | str kindStr =>
              by_cases h1 : kindStr = "workspaces_changed"
              · subst h1
                cases hw : pyIndex e "workspaces" <;>
                  simp [applyMsg, handle_event, wWrite, awWrite, winWrite,
                    eventWrite, eventKindOf, hc, hk, hw, Except.toOption]
              · by_cases h2 : kindStr = "workspace_activated"
                · subst h2
                  cases hw : pyIndex e "workspace" <;>
                    simp [applyMsg, handle_event, wWrite, awWrite, winWrite,
                      eventWrite, eventKindOf, hc, hk, hw, Except.toOption]
                · simp [applyMsg, handle_event, wWrite, awWrite, winWrite,
                    eventWrite, eventKindOf, hc, hk, h1, h2]
            | null =>
              simp [applyMsg, handle_event, wWrite, awWrite, winWrite,
                eventWrite, eventKindOf, hc, hk]
            | bool b2 =>
              simp [applyMsg, handle_event, wWrite, awWrite, winWrite,
                eventWrite, eventKindOf, hc, hk]
            | num n =>
              simp [applyMsg, handle_event, wWrite, awWrite, winWrite,
                eventWrite, eventKindOf, hc, hk]
            | arr xs =>
              simp [applyMsg, handle_event, wWrite, awWrite, winWrite,
                eventWrite, eventKindOf, hc, hk]
            | obj kvs =>
              simp [applyMsg, handle_event, wWrite, awWrite, winWrite,
                eventWrite, eventKindOf, hc, hk]
  | rep r =>
    cases r with
    | none => rfl
    | some reply =>
      cases reply with
      | null => rfl
      | bool b => rfl
      | num n => rfl
      | str s' =>
        simp only [applyMsg, handle_response, wWrite, awWrite, winWrite,
          replyWrite, pyContains, pyIndex]
        cases h1 : hasSubCh "workspaces".toList s'.toList <;>
          cases h2 : hasSubCh "active_workspace".toList s'.toList <;>
            cases h3 : hasSubCh "active_window".toList s'.toList <;> rfl
      | arr elems =>
        simp only [applyMsg, handle_response, wWrite, awWrite, winWrite,
          replyWrite, pyContains, pyIndex]
        cases h1 : (elems.any fun e =>
            match e with | .str s'' => s'' = "workspaces" | _ => false) <;>
          cases h2 : (elems.any fun e =>
              match e with | .str s'' => s'' = "active_workspace" | _ => false) <;>
            cases h3 : (elems.any fun e =>
                match e with | .str s'' => s'' = "active_window" | _ => false) <;> rfl
      | obj kvs =>
        simp only [applyMsg, handle_response, wWrite, awWrite, winWrite,
          replyWrite, pyContains, pyIndex, any_eq_lookupLast_isSome]
        cases h1 : lookupLast kvs "workspaces" <;>
          cases h2 : lookupLast kvs "active_workspace" <;>
            cases h3 : lookupLast kvs "active_window" <;>
              simp [h1, h2, h3, Except.map, Except.toOption]

/-- The `workspaces` field after one update. -/
theorem applyMsg_workspaces (s : NiriState) (m : Msg) :
    (applyMsg s m).workspaces = (wWrite m).getD s.workspaces := by
  rw [applyMsg_eq_writes]

/-- The `active_workspace` field after one update. -/
theorem applyMsg_active_workspace (s : NiriState) (m : Msg) :
    (applyMsg s m).active_workspace = (awWrite m).getD s.active_workspace := by
  rw [applyMsg_eq_writes]

/-- The `active_window` field after one update. -/
theorem applyMsg_active_window (s : NiriState) (m : Msg) :
    (applyMsg s m).active_window = (winWrite m).getD s.active_window := by
  rw [applyMsg_eq_writes]

/-- A field whose single-step behaviour is replace-or-keep satisfies
last-write-wins over any update sequence. -/
theorem applyAll_field (g : NiriState → Json) (f : Msg → Option Json)
    (hg : ∀ s m, g (applyMsg s m) = (f m).getD (g s)) :
    ∀ (ms : List Msg) (s0 : NiriState),
      g (applyAll s0 ms) = (lastWrite f ms).getD (g s0) := by
  intro ms
  induction ms with
  | nil => intro s0; rfl
  | cons m rest ih =>
    intro s0
    show g (applyAll (applyMsg s0 m) rest) = _
    rw [ih, hg]
    cases h : lastWrite f rest <;> simp [lastWrite, h]

/-! The claim theorems. -/

/-- C1 (amended).  A frame that decodes as UTF-8 but is rejected by
`json.loads` is logged and dropped: inserting it anywhere in the inbound
stream leaves the listener result unchanged, and the handler returns
normally so the loop continues.  (A frame whose bytes are not valid UTF-8
instead raises UnicodeDecodeError, which the JSON-specific handler does not
catch, and stops the loop; see the counterexample.) -/
theorem niri_c1_malformed_frame (s : NiriState) (pre post : List Frame) :
    listen_socket s (pre ++ Frame.notJson :: post) = listen_socket s (pre ++ post)
    ∧ handle_event s Frame.notJson = (s, true) := by
  refine ⟨?_, rfl⟩
  induction pre generalizing s with
  | nil => rfl
  | cons f rest ih =>
    show listen_socket s (f :: (rest ++ Frame.notJson :: post))
        = listen_socket s (f :: (rest ++ post))
    simp only [listen_socket]
    cases h : handle_event s f with
    | mk s' ok => cases ok <;> simp [ih]

/-- C1 (counterexample).  A malformed frame made of bytes that are not
valid UTF-8, placed between two valid event frames, stops the listener
loop, and the resulting state differs from processing only the two valid
frames: the `workspace_activated` frame after it is never handled. -/
theorem niri_c1_utf8_counterexample :
    (listen_socket initState [wsChangedFrame, Frame.notUtf8, wsActivatedFrame]).1
      ≠ (listen_socket initState [wsChangedFrame, wsActivatedFrame]).1
    ∧ (listen_socket initState [wsChangedFrame, Frame.notUtf8, wsActivatedFrame]).2
      = false := by
  constructor
  · intro h
    have h2 := congrArg NiriState.active_workspace h
    have e1 : (listen_socket initState
        [wsChangedFrame, Frame.notUtf8, wsActivatedFrame]).1.active_workspace
        = Json.obj [] := rfl
    have e2 : (listen_socket initState
        [wsChangedFrame, wsActivatedFrame]).1.active_workspace
        = Json.obj [("id", Json.num 3)] := rfl
    rw [e1, e2] at h2
    injection h2 with h3
    exact List.noConfusion h3
  · rfl

/-- C2.  Last-write-wins per field: after any sequence of applied events
and replies, each of the three fields equals the last value written to it,
independently of the other fields, and applying the same update twice in a
row equals applying it once. -/
theorem niri_c2_last_write_wins (s0 : NiriState) (ms : List Msg)
    (s : NiriState) (m : Msg) :
    (applyAll s0 ms).workspaces = (lastWrite wWrite ms).getD s0.workspaces
    ∧ (applyAll s0 ms).active_workspace
      = (lastWrite awWrite ms).getD s0.active_workspace
    ∧ (applyAll s0 ms).active_window
      = (lastWrite winWrite ms).getD s0.active_window
    ∧ applyMsg (applyMsg s m) m = applyMsg s m := by
  refine ⟨applyAll_field _ _ applyMsg_workspaces ms s0,
    applyAll_field _ _ applyMsg_active_workspace ms s0,
    applyAll_field _ _ applyMsg_active_window ms s0, ?_⟩
  rw [applyMsg_eq_writes s m, applyMsg_eq_writes]
  cases wWrite m <;> cases awWrite m <;> cases winWrite m <;> simp

/-- C3.  A `workspaces_changed` event replaces `workspaces` with exactly
the `workspaces` payload of the event, unmodified, and a
`workspace_activated` event replaces `active_workspace` with exactly the
`workspace` payload. -/
theorem niri_c3_event_payload (s : NiriState)
    (kvs kvs2 : List (String × Json)) (w wk : Json) :
    (lookupLast kvs "event" = some (Json.str "workspaces_changed") →
     lookupLast kvs "workspaces" = some w →
     handle_event s (.val (.obj kvs)) = ({ s with workspaces := w }, true))
    ∧ (lookupLast kvs2 "event" = some (Json.str "workspace_activated") →
       lookupLast kvs2 "workspace" = some wk →
       handle_event s (.val (.obj kvs2))
         = ({ s with active_workspace := wk }, true)) := by
  constructor
  · intro h1 h2
    have hc : pyContains (Json.obj kvs) "event" = .ok true := by
      simp [pyContains, any_eq_lookupLast_isSome, h1]
    simp [handle_event, hc, pyIndex, h1, h2]
  · intro h1 h2
    have hc : pyContains (Json.obj kvs2) "event" = .ok true := by
      simp [pyContains, any_eq_lookupLast_isSome, h1]
    simp [handle_event, hc, pyIndex, h1, h2]

/-- C3 (witness).  The two implications applied to concrete events. -/
theorem niri_c3_event_payload_witness :
    handle_event initState (.val (.obj wsChangedKVs))
      = ({ initState with workspaces := .arr [.obj [("id", .num 1)]] }, true)
    ∧ handle_event initState (.val (.obj wsActivatedKVs))
      = ({ initState with active_workspace := .obj [("id", .num 3)] }, true) :=
  ⟨(niri_c3_event_payload initState wsChangedKVs wsActivatedKVs
      (.arr [.obj [("id", .num 1)]]) (.obj [("id", .num 3)])).1 rfl rfl,
   (niri_c3_event_payload initState wsChangedKVs wsActivatedKVs
      (.arr [.obj [("id", .num 1)]]) (.obj [("id", .num 3)])).2 rfl rfl⟩

/-- C4.  The three reply keys are checked independently: each field takes
the value under its key when the key is present and keeps its old value
otherwise, so one reply carrying several keys updates all the matching
fields in a single application. -/
theorem niri_c4_reply_keys (s : NiriState) (kvs : List (String × Json)) :
    handle_response s (some (Json.obj kvs)) =
      ({ workspaces := (lookupLast kvs "workspaces").getD s.workspaces
       , active_workspace :=
           (lookupLast kvs "active_workspace").getD s.active_workspace
       , active_window :=
           (lookupLast kvs "active_window").getD s.active_window }, true) := by
  simp only [handle_response, pyContains, pyIndex, any_eq_lookupLast_isSome]
  cases h1 : lookupLast kvs "workspaces" <;>
    cases h2 : lookupLast kvs "active_workspace" <;>
      cases h3 : lookupLast kvs "active_window" <;>
        simp [h1, h2, h3, Except.map]

/-- C5.  A `workspace_activated` event leaves `workspaces` and
`active_window` at their prior values, and when its `workspace` payload is
present the only change is that `active_workspace` becomes that payload. -/
theorem niri_c5_activated_frame (s : NiriState) (kvs : List (String × Json))
    (h : lookupLast kvs "event" = some (Json.str "workspace_activated")) :
    ((handle_event s (.val (.obj kvs))).1.workspaces = s.workspaces
     ∧ (handle_event s (.val (.obj kvs))).1.active_window = s.active_window)
    ∧ ∀ wk : Json, lookupLast kvs "workspace" = some wk →
        (handle_event s (.val (.obj kvs))).1
          = { s with active_workspace := wk } := by
  have hc : pyContains (Json.obj kvs) "event" = .ok true := by
    simp [pyContains, any_eq_lookupLast_isSome, h]
  constructor
  · cases hw : lookupLast kvs "workspace" <;>
      simp [handle_event, hc, pyIndex, h, hw]
  · intro wk hwk
    simp [handle_event, hc, pyIndex, h, hwk]

/-- C5 (witness).  The theorem applied to a concrete activation event. -/
theorem niri_c5_activated_frame_witness :
    (handle_event initState (.val (.obj wsActivatedKVs))).1
      = { initState with active_workspace := .obj [("id", .num 3)] } :=
  (niri_c5_activated_frame initState wsActivatedKVs rfl).2 _ rfl

/-- C6 (code bug).  `__init__` starts the background listener thread before
the two bootstrap exchanges, and no lock serializes its `recv` against the
inline `recv` of `__send_request`.  Under the interleaving in which the
listener is served the reply to `get_workspaces`, that reply is passed to
`__handle_event`, which discards it (it carries no `event` key), the cache
keeps `workspaces` at its empty initial value, and the constructor never
returns, still blocked in the first bootstrap read; only under the
interleaving in which the query path wins both reads does construction
complete with the state the claim asserts. -/
theorem niri_c6_bootstrap_race :
    niri_init true false false (.val bootReply1) (.val bootReply2)
      = (.blocked initState, [.connect, .send getWorkspacesRequest, .recv])
    ∧ niri_init true true true (.val bootReply1) (.val bootReply2)
      = (.ok { workspaces := .arr [.obj [("id", .num 1)], .obj [("id", .num 2)]]
             , active_workspace := .obj []
             , active_window := .obj [] }
        , [.connect, .send getWorkspacesRequest, .recv,
           .send getActiveWindowRequest, .recv]) :=
  ⟨rfl, rfl⟩

/-- C7 (counterexample).  At end-of-stream the blocked caller does not
receive any error: `recv` returns the empty byte string, the resulting
empty string fails JSON parsing, and `__handle_response` catches and logs
that failure, so `__send_request` returns normally (flag `true` means no
exception escaped) with the cached state untouched. -/
theorem niri_c7_eos_counterexample :
    send_request sampleState eosWire = (sampleState, true) := rfl

/-- C7 (amended).  On transport end-of-stream the caller in the query path
returns normally rather than receiving an error: the empty read is treated
as a JSON decode failure, logged and dropped, and the cached state remains
readable with its last values. -/
theorem niri_c7_eos_amended (s : NiriState) :
    send_request s eosWire = (s, true) := rfl

/-- C8.  When the socket path does not exist the constructor raises
`NiriIPCNotFoundError` before anything else: the transport trace is empty,
so no connection was attempted or established, and the failure is not
retried. -/
theorem niri_c8_no_socket (q1 q2 : Bool) (r1 r2 : Frame) :
    niri_init false q1 q2 r1 r2 = (InitResult.notFound, []) := rfl

/-- C9 (code bug).  The send-and-receive pair is not a critical section:
no lock serializes the query-path `recv` against the listener-thread
`recv`.  Under the interleaving in which the query-path read is served
first, the query consumes the pending unsolicited event instead of its
reply, the true reply (active window 7) is consumed by the listener, which
ignores it, and the update is lost; under the other interleaving the reply
reaches the store.  The spec requires the reply received for the query to
correspond to the query in every interleaving. -/
theorem niri_c9_race_bug :
    (queryRace initState strayEvent trueReply false).2 = strayEvent
    ∧ strayEvent ≠ trueReply
    ∧ (queryRace initState strayEvent trueReply false).1.active_window
      = Json.obj []
    ∧ (queryRace initState strayEvent trueReply true).1.active_window
      = Json.obj [("id", Json.num 7)] := by
  refine ⟨rfl, ?_, rfl, rfl⟩
  intro h
  simp only [strayEvent, trueReply, wsActivatedKVs] at h
  injection h with h1
  injection h1 with h2
  injection h2 with h3 h4
  injection h3 with h5 h6
  exact absurd h5 (by decide)

/-- C10.  No event frame ever modifies `active_window`: for every inbound
byte sequence, `__handle_event` leaves that field unchanged, whatever else
it does; the field is written only by `__handle_response`. -/
theorem niri_c10_event_preserves_active_window (s : NiriState) (f : Frame) :
    (handle_event s f).1.active_window = s.active_window := by
  have h := congrArg NiriState.active_window (applyMsg_eq_writes s (.ev f))
  simpa [applyMsg, winWrite] using h
